import Mathlib

/-!
Verification development for the inspektor-gadget trace orchestrator
(`cmd/kubectl-gadget/utils/trace.go`) and the tcpconnect tracer runtime
(`pkg/gadgets/trace/tcpconnect/tracer/tracer.go`).

The Go code is shallowly embedded: the Kubernetes control plane is a list
of trace copies, every fallible external call is a parameter naming its
outcome, Go maps are association lists iterated in list order (one
admissible iteration order of a Go map), and stderr printing is an
explicit list of lines.
-/

namespace TraceOrchestrator

/-- Mirrors `traceTimeout = 2 * time.Second`; `fmt.Sprintf("%v", traceTimeout)`
renders it as the string "2s". -/
def traceTimeoutString : String := "2s"

/-- Per-copy observed status of one node copy of a trace
(`trace.Status` fields used by `waitForTraceState`). -/
structure TraceStatus where
  operationError : String
  operationWarning : String
  state : String
deriving DecidableEq, Repr

/-- One per-node copy of a trace as fetched by `getTraceListFromID`
(the fields `waitForTraceState` reads: `Spec.Node` and `Status`). -/
structure TraceItem where
  node : String
  status : TraceStatus
deriving DecidableEq, Repr

/-- Mirrors `getIdenticalValue`: fold over the map entries keeping the first
non-empty value seen; return "" as soon as a later value differs from a
previously retained non-empty value. -/
def getIdenticalValueAux (value : String) : List (String × String) → String
  | [] => value
  | (_, v) :: rest =>
      if value = "" then getIdenticalValueAux v rest
      else if value ≠ v then ""
      else getIdenticalValueAux value rest

/-- Mirrors `getIdenticalValue(m)` with the map iterated in list order. -/
def getIdenticalValue (m : List (String × String)) : String :=
  getIdenticalValueAux "" m

/-- One per-node stderr line of `printTraceFeedback`
(`fmt.Fprintf(os.Stderr, "Failed to run the gadget on node %q: %s\n", node, msg)`). -/
def perNodeLine (p : String × String) : String :=
  "Failed to run the gadget on node \"" ++ p.1 ++ "\": " ++ p.2

/-- The aggregate stderr line of `printTraceFeedback`
(`"Failed to run the gadget on all nodes: %s\n"`). -/
def allNodesLine (msg : String) : String :=
  "Failed to run the gadget on all nodes: " ++ msg

/-- Mirrors `printTraceFeedback(m, totalNodes)`: if the map has more than one
entry, covers every node, and `getIdenticalValue` yields a non-empty value,
print that value once; otherwise print one line per entry. The returned list
is the sequence of stderr lines. -/
def printTraceFeedback (m : List (String × String)) (totalNodes : Nat) : List String :=
  if m.length > 1 ∧ m.length = totalNodes ∧ getIdenticalValue m ≠ "" then
    [allNodesLine (getIdenticalValue m)]
  else
    m.map perNodeLine

/-- The per-node error recorded for a copy that neither moved the state
forward nor reported an error or warning within the timeout window
(`fmt.Sprintf("No results received from trace within %v", traceTimeout)`). -/
def timeoutMsg : String :=
  "No results received from trace within " ++ traceTimeoutString

/-- A copy counts toward `successNodeCount` exactly when its error and warning
fields are empty and its state equals the expected state (the third branch of
the classification chain in `waitForTraceState`). -/
def convergedB (expectedState : String) (i : TraceItem) : Bool :=
  i.status.operationError = "" && i.status.operationWarning = ""
    && i.status.state = expectedState

/-- A copy is pending when it falls through to the last branch of the
classification chain: no error, no warning, state not yet the expected one. -/
def pendingB (expectedState : String) (i : TraceItem) : Bool :=
  i.status.operationError = "" && i.status.operationWarning = ""
    && i.status.state ≠ expectedState

/-- Mirrors the per-item classification loop of `waitForTraceState`: thread
the `nodeErrors` map, the `nodeWarnings` map and `successNodeCount` through
the items; a pending item before the timeout aborts the round
(`continue RetryLoop`), returned here as `none`; a pending item after the
timeout is recorded as a per-node error with `timeoutMsg`. -/
def classifyRound (expectedState : String) (timeout : Bool) :
    List TraceItem → List (String × String) → List (String × String) → Nat →
    Option (List (String × String) × List (String × String) × Nat)
  | [], errs, warns, succ => some (errs, warns, succ)
  | i :: rest, errs, warns, succ =>
      if i.status.operationError ≠ "" then
        classifyRound expectedState timeout rest
          (errs ++ [(i.node, i.status.operationError)]) warns succ
      else if i.status.operationWarning ≠ "" then
        classifyRound expectedState timeout rest errs
          (warns ++ [(i.node, i.status.operationWarning)]) succ
      else if i.status.state = expectedState then
        classifyRound expectedState timeout rest errs warns (succ + 1)
      else if timeout then
        classifyRound expectedState timeout rest
          (errs ++ [(i.node, timeoutMsg)]) warns succ
      else
        none

/-- The aggregate failure returned when no node converged. -/
def noneSucceededMsg : String :=
  "Failed to run the gadget on all nodes: None of them succeeded"

/-- Outcome of one round of the `RetryLoop` in `waitForTraceState`. `retry`
is the `continue RetryLoop` path; the other constructors carry the stderr
lines printed while returning (including the deferred error feedback). -/
inductive RoundOutcome where
  | retry : RoundOutcome
  | fetchError (msg : String) : RoundOutcome
  | failed (msg : String) (printed : List String) : RoundOutcome
  | success (traces : List TraceItem) (printed : List String) : RoundOutcome
deriving DecidableEq, Repr

/-- One round of `waitForTraceState` given the items fetched for the traceID
and whether `time.Since(start) > traceTimeout` held at the start of the round.
`getTraceListFromID` fails when the fetched list is empty; otherwise the
items are classified, warnings are printed only when no node converged, and
the deferred `printTraceFeedback(nodeErrors, ...)` runs on every return. -/
def waitForTraceStateRound (items : List TraceItem) (expectedState : String)
    (timeout : Bool) : RoundOutcome :=
  if items.isEmpty then
    .fetchError "No traces found for traceID!"
  else
    match classifyRound expectedState timeout items [] [] 0 with
    | none => .retry
    | some (errs, warns, succ) =>
        if succ = 0 then
          .failed noneSucceededMsg
            (printTraceFeedback warns items.length ++
              printTraceFeedback errs items.length)
        else
          .success items (printTraceFeedback errs items.length)

/-- The whole `RetryLoop`: run rounds over successive snapshots (fetched
items paired with the timeout flag of that instant) until a round does not
retry; `none` when the given snapshots were exhausted while still retrying. -/
def waitForTraceState (expectedState : String) :
    List (List TraceItem × Bool) → Option RoundOutcome
  | [] => none
  | (items, t) :: rest =>
      match waitForTraceStateRound items expectedState t with
      | .retry => waitForTraceState expectedState rest
      | r => some r

/-- The label alphabet of `randomTraceID`
(`"0123456789abcdefghijklmnopqrstuvwxyzABCDEFGHIJKLMNOPQRSTUVWXYZ"`). -/
def allowedCharacters : List Char :=
  "0123456789abcdefghijklmnopqrstuvwxyzABCDEFGHIJKLMNOPQRSTUVWXYZ".toList

/-- Mirrors `randomTraceID`: 16 characters drawn from `allowedCharacters`;
the random generator is a parameter giving the draw at each position
(`rand.Int31n(62)` modelled as `rnd i % 62`). -/
def randomTraceID (rnd : Nat → Nat) : String :=
  String.mk ((List.range 16).map (fun i => allowedCharacters.getD (rnd i % 62) 'a'))

/-- The container/pod/namespace/label filter of the trace spec
(`gadgetv1alpha1.ContainerFilter`). -/
structure ContainerFilter where
  namespaceName : String
  podname : String
  containerName : String
  labels : List (String × String)
deriving DecidableEq, Repr

/-- The `CommonFlags` fields read by `CreateTrace`. -/
structure CommonFlags where
  node : String
  namespaceName : String
  podname : String
  containername : String
  labels : List (String × String)
deriving DecidableEq, Repr

/-- The `TraceConfig` fields read by `CreateTrace`. -/
structure TraceConfig where
  gadgetName : String
  operation : String
  traceOutputMode : String
  traceOutput : String
  traceInitialState : String
  commonFlags : CommonFlags
deriving DecidableEq, Repr

/-- The filter construction inside `CreateTrace`: the `Filter` field is kept
nil unless at least one of namespace, pod name, container name or labels is
set, in which case it carries exactly those four values. -/
def buildContainerFilter (cf : CommonFlags) : Option ContainerFilter :=
  if cf.namespaceName ≠ "" ∨ cf.podname ≠ "" ∨ cf.containername ≠ ""
      ∨ cf.labels.length > 0 then
    some { namespaceName := cf.namespaceName, podname := cf.podname,
           containerName := cf.containername, labels := cf.labels }
  else
    none

/-- A trace copy living on the control plane: the `GLOBAL_TRACE_ID` label
(absent when the posted trace carried none), the node it was created for,
and the gadget name. -/
structure TraceCopy where
  tid : Option String
  node : String
  gadget : String
deriving DecidableEq, Repr

/-- The fields of the posted `gadgetv1alpha1.Trace` that the claims read:
the `GLOBAL_TRACE_ID` label, `Spec.Node`, the gadget name and the
container filter. -/
structure TraceObj where
  labelsTid : Option String
  specNode : String
  gadget : String
  filter : Option ContainerFilter
deriving DecidableEq, Repr

/-- Outcomes of the external calls `createTraces` makes, each a parameter:
`NewClientsetFromConfigFlags`, `Nodes().List`, `getRestClient`, the per-node
`Post` (keyed by node name), and the `Delete` issued by `deleteTraces`. -/
structure CreateEnv where
  clientErr : Option String
  nodesErr : Option String
  restErr : Option String
  createFails : String → Bool
  deleteErr : Option String

/-- Mirrors `deleteTraces`: issue one label-selector delete for the
identifier; on success every copy whose `GLOBAL_TRACE_ID` equals `traceID`
is removed; on failure the state is unchanged and the error is only written
to stderr (`"Error deleting traces: %q"`). Returns the new state and the
stderr lines. -/
def deleteTraces (deleteErr : Option String) (traceID : String)
    (st : List TraceCopy) : List TraceCopy × List String :=
  match deleteErr with
  | some e => (st, ["Error deleting traces: \"" ++ e ++ "\""])
  | none => (st.filter (fun c => decide (c.tid ≠ some traceID)), [])

/-- The per-node loop of `createTraces`: skip nodes other than an explicit
`Spec.Node`; post one copy per remaining node (the copy's node is the
explicit node, or the iterated node when `Spec.Node` was empty); on a post
failure, when the trace carries a `GLOBAL_TRACE_ID` label, delete everything
under that identifier before returning the error. -/
def createTracesLoop (env : CreateEnv) (trace : TraceObj) :
    List String → List TraceCopy → List TraceCopy × Option String
  | [], st => (st, none)
  | n :: rest, st =>
      if trace.specNode ≠ "" ∧ n ≠ trace.specNode then
        createTracesLoop env trace rest st
      else
        if env.createFails n then
          match trace.labelsTid with
          | some t =>
              ((deleteTraces env.deleteErr t st).1,
                some ("Error creating trace on node \"" ++ n ++ "\""))
          | none => (st, some ("Error creating trace on node \"" ++ n ++ "\""))
        else
          createTracesLoop env trace rest
            (st ++ [{ tid := trace.labelsTid,
                      node := if trace.specNode = "" then n else trace.specNode,
                      gadget := trace.gadget }])

/-- Mirrors `createTraces`: set up the Kubernetes client, list the nodes,
build the trace REST client — each returning early on failure — then run the
per-node creation loop. -/
def createTraces (env : CreateEnv) (trace : TraceObj) (nodes : List String)
    (st : List TraceCopy) : List TraceCopy × Option String :=
  match env.clientErr with
  | some e => (st, some ("Error setting up Kubernetes client: " ++ e))
  | none =>
      match env.nodesErr with
      | some e => (st, some ("Error listing nodes: " ++ e))
      | none =>
          match env.restErr with
          | some e => (st, some ("Error setting up trace REST client: " ++ e))
          | none => createTracesLoop env trace nodes st

/-- Mirrors `DeleteTrace`: build the REST client (the only error the
function can return), then run the best-effort `deleteTraces`. Returns the
new state, the stderr lines, and the returned error. -/
def DeleteTrace (restErr : Option String) (deleteErr : Option String)
    (traceID : String) (st : List TraceCopy) :
    List TraceCopy × List String × Option String :=
  match restErr with
  | some e => (st, [], some e)
  | none =>
      let r := deleteTraces deleteErr traceID st
      (r.1, r.2, none)

/-- The trace resource `CreateTrace` builds before posting: the generated
identifier as `GLOBAL_TRACE_ID` label, `Spec.Node` from the flags, the
gadget name, and the container filter kept nil when unused. -/
def builtTrace (rnd : Nat → Nat) (config : TraceConfig) : TraceObj :=
  { labelsTid := some (randomTraceID rnd),
    specNode := config.commonFlags.node,
    gadget := config.gadgetName,
    filter := buildContainerFilter config.commonFlags }

/-- Mirrors `CreateTrace`: generate a fresh identifier, build the trace
object, run `createTraces`; when `TraceInitialState` is non-empty, block on
`waitForTraceState` (its error outcome is the parameter `waitErr`) and on
failure call `DeleteTrace` and return the error with an empty identifier.
Returns the control-plane state, the returned traceID and the error. -/
def CreateTrace (env : CreateEnv) (rnd : Nat → Nat)
    (waitErr : Option String) (waitRestErr : Option String)
    (config : TraceConfig) (nodes : List String) (st : List TraceCopy) :
    List TraceCopy × String × Option String :=
  match createTraces env (builtTrace rnd config) nodes st with
  | (st1, some e) => (st1, "", some e)
  | (st1, none) =>
      if config.traceInitialState ≠ "" then
        match waitErr with
        | some e =>
            ((DeleteTrace waitRestErr env.deleteErr (randomTraceID rnd) st1).1,
              "", some e)
        | none => (st1, randomTraceID rnd, none)
      else
        (st1, randomTraceID rnd, none)

end TraceOrchestrator

namespace TcpconnectTracer

/-- The kernel-side resources `install` acquires, in acquisition order:
the loaded collection (`t.objs`), the six hook links, and the perf reader. -/
inductive Res where
  | objs : Res
  | v4Enter : Res
  | v6Enter : Res
  | v4Exit : Res
  | v6Exit : Res
  | tcpDestroy : Res
  | tcpRcv : Res
  | reader : Res
deriving DecidableEq, Repr

/-- Which of `install`'s fallible steps fail, in source order:
`loadTcpconnect`, `RewriteConstants`, `LoadAndAssign`, the attachments of
`IgTcpcV4CoE`, `IgTcpcV6CoE`, `IgTcpcV4CoX`, `IgTcpcV6CoX`, `IgTcpDestroy`,
`IgTcpRsp`, and `perf.NewReader`. -/
structure InstallFaults where
  loadSpecFail : Bool
  rewriteFail : Bool
  loadAssignFail : Bool
  v4EnterFail : Bool
  v6EnterFail : Bool
  v4ExitFail : Bool
  v6ExitFail : Bool
  tcpDestroyFail : Bool
  tcpRcvFail : Bool
  readerFail : Bool
deriving DecidableEq, Repr

/-- Mirrors `install`: acquire resources in order, returning the held set
and the first error. With `calculateLatency` false the kretprobe pair is
attached; with it true the tracepoint and `tcp_rcv_state_process` kprobe
are attached instead. `install` itself releases nothing on failure. -/
def install (calculateLatency : Bool) (f : InstallFaults) :
    List Res × Option String :=
  if f.loadSpecFail then ([], some "failed to load ebpf program") else
  if f.rewriteFail then ([], some "error RewriteConstants") else
  if f.loadAssignFail then ([], some "failed to load ebpf program") else
  if f.v4EnterFail then ([Res.objs], some "error attaching program") else
  if f.v6EnterFail then ([Res.objs, Res.v4Enter], some "error attaching program") else
  if !calculateLatency then
    if f.v4ExitFail then
      ([Res.objs, Res.v4Enter, Res.v6Enter], some "error attaching program")
    else if f.v6ExitFail then
      ([Res.objs, Res.v4Enter, Res.v6Enter, Res.v4Exit],
        some "error attaching program")
    else if f.readerFail then
      ([Res.objs, Res.v4Enter, Res.v6Enter, Res.v4Exit, Res.v6Exit],
        some "error creating perf ring buffer")
    else
      ([Res.objs, Res.v4Enter, Res.v6Enter, Res.v4Exit, Res.v6Exit, Res.reader],
        none)
  else
    if f.tcpDestroyFail then
      ([Res.objs, Res.v4Enter, Res.v6Enter], some "error attaching program")
    else if f.tcpRcvFail then
      ([Res.objs, Res.v4Enter, Res.v6Enter, Res.tcpDestroy],
        some "error attaching program")
    else if f.readerFail then
      ([Res.objs, Res.v4Enter, Res.v6Enter, Res.tcpDestroy, Res.tcpRcv],
        some "error creating perf ring buffer")
    else
      ([Res.objs, Res.v4Enter, Res.v6Enter, Res.tcpDestroy, Res.tcpRcv,
          Res.reader],
        none)

/-- Mirrors `close`: release the six links via `gadgets.CloseLink` and the
loaded collection via `t.objs.Close()`; the perf reader is not touched by
`close` in this version. -/
def closeTracer (held : List Res) : List Res :=
  held.filter (fun r => decide (r = Res.reader))

/-- Mirrors `NewTracer`: run `install`; on error call `t.close()` and return
`(nil, err)`. Returns whether a tracer was returned, the error, and the
kernel resources still attached when the call returns. -/
def NewTracer (calculateLatency : Bool) (f : InstallFaults) :
    Bool × Option String × List Res :=
  match install calculateLatency f with
  | (held, some e) => (false, some e, closeTracer held)
  | (held, none) => (true, none, held)

/-- The raw `tcpconnectEvent` fields decoded by the run loop. -/
structure TcpconnectEvent where
  af : Nat
  pid : Nat
  uid : Nat
  dport : Nat
  sport : Nat
  latency : Int
  mntnsId : Nat
  timestamp : Nat
  task : String
deriving DecidableEq, Repr

/-- One `perf.Record`: the lost-sample count and the raw sample. -/
structure PerfRecord where
  lostSamples : Nat
  rawSample : TcpconnectEvent
deriving DecidableEq, Repr

/-- Outcome of one `t.reader.Read()` call: a record, the reader-closed
condition (`perf.ErrClosed`), or another read error. -/
inductive ReadResult where
  | ok (rec : PerfRecord) : ReadResult
  | errClosed : ReadResult
  | errOther (msg : String) : ReadResult
deriving DecidableEq, Repr

/-- A `ReadResult` that is an error of either kind. -/
def ReadResult.isErr : ReadResult → Bool
  | .ok _ => false
  | .errClosed => true
  | .errOther _ => true

/-- The kind tag of an emitted event (`eventtypes.NORMAL` / `ERR` / `WARN`). -/
inductive EventType where
  | normal : EventType
  | errType : EventType
  | warnType : EventType
deriving DecidableEq, Repr

/-- `gadgets.Htons` byte-order normalization of a 16-bit port. -/
def htons (x : Nat) : Nat := (x % 256) * 256 + (x / 256) % 256

/-- `gadgets.IPVerFromAF`: 6 for `AF_INET6` (10), otherwise 4. -/
def ipVerFromAF (af : Nat) : Nat := if af = 10 then 6 else 4

/-- The typed event handed to the callback: the common envelope plus the
tcpconnect payload (container metadata filled by the optional enricher). -/
structure Event where
  eventType : EventType
  message : String
  mountNsID : Nat
  pid : Nat
  uid : Nat
  comm : String
  dport : Nat
  sport : Nat
  ipVersion : Nat
  latency : Int
  container : String
deriving DecidableEq, Repr

/-- The error-kind event built by `types.Base(eventtypes.Err(msg))` for a
ring-buffer read failure. -/
def errEvent (cause : String) : Event :=
  { eventType := .errType,
    message := "Error reading perf ring buffer: " ++ cause,
    mountNsID := 0, pid := 0, uid := 0, comm := "", dport := 0, sport := 0,
    ipVersion := 0, latency := 0, container := "" }

/-- The warning-kind event built by `types.Base(eventtypes.Warn(msg))` for a
lost-sample record (`"lost %d samples"`). -/
def warnEvent (lost : Nat) : Event :=
  { eventType := .warnType,
    message := "lost " ++ toString lost ++ " samples",
    mountNsID := 0, pid := 0, uid := 0, comm := "", dport := 0, sport := 0,
    ipVersion := 0, latency := 0, container := "" }

/-- Decoding of a raw sample into a normal event, with optional enrichment
by mount-namespace identifier. -/
def decodeEvent (enricher : Option (Nat → String)) (raw : TcpconnectEvent) :
    Event :=
  { eventType := .normal,
    message := "",
    mountNsID := raw.mntnsId,
    pid := raw.pid,
    uid := raw.uid,
    comm := raw.task,
    dport := htons raw.dport,
    sport := raw.sport,
    ipVersion := ipVerFromAF raw.af,
    latency := raw.latency,
    container :=
      match enricher with
      | some enrich => enrich raw.mntnsId
      | none => "" }

/-- How the run loop left off after consuming the given reads: the reader
was closed, a read error ended it, or it is still consuming (all given
reads processed, loop blocked on the next `Read`). -/
inductive LoopExit where
  | closedExit : LoopExit
  | erroredExit : LoopExit
  | running : LoopExit
deriving DecidableEq, Repr

/-- Mirrors `run`: consume read results in order. `perf.ErrClosed` returns
with no callback; any other read error invokes the callback once with an
error-kind event and returns; a record with `LostSamples > 0` invokes the
callback once with a warning-kind event and continues; otherwise the record
is decoded, enriched and forwarded. Returns the events passed to the
callback and how the loop ended. -/
def runLoop (enricher : Option (Nat → String)) :
    List ReadResult → List Event × LoopExit
  | [] => ([], .running)
  | .errClosed :: _ => ([], .closedExit)
  | .errOther msg :: _ => ([errEvent msg], .erroredExit)
  | .ok rec :: rest =>
      if rec.lostSamples > 0 then
        let r := runLoop enricher rest
        (warnEvent rec.lostSamples :: r.1, r.2)
      else
        let r := runLoop enricher rest
        (decodeEvent enricher rec.rawSample :: r.1, r.2)

end TcpconnectTracer

namespace TraceOrchestrator

lemma classifyRound_timeout_isSome (es : String) :
    ∀ (items : List TraceItem) (errs warns : List (String × String)) (succ : Nat),
      (classifyRound es true items errs warns succ).isSome := by
  intro items
  induction items with
  | nil => intro errs warns succ; simp [classifyRound]
  | cons i rest ih =>
      intro errs warns succ
      simp only [classifyRound]
      split_ifs <;> exact ih _ _ _

lemma classifyRound_succ_eq (es : String) (t : Bool) :
    ∀ (items : List TraceItem) (errs warns : List (String × String)) (succ : Nat)
      (e w : List (String × String)) (s : Nat),
      classifyRound es t items errs warns succ = some (e, w, s) →
      s = succ + items.countP (convergedB es) := by
  intro items
  induction items with
  | nil =>
      intro errs warns succ e w s h
      simp only [classifyRound, Option.some.injEq, Prod.mk.injEq] at h
      simp [← h.2.2]
  | cons i rest ih =>
      intro errs warns succ e w s h
      simp only [classifyRound] at h
      split_ifs at h with h1 h2 h3 h4
      · have := ih _ _ _ _ _ _ h
        simp only [List.countP_cons, convergedB]
        simp [h1] at this ⊢
        omega
      · have := ih _ _ _ _ _ _ h
        simp only [List.countP_cons, convergedB]
        simp [h2] at this ⊢
        omega
      · simp only [ne_eq, not_not] at h1 h2
        have := ih _ _ _ _ _ _ h
        simp only [List.countP_cons, convergedB]
        simp [h1, h2, h3] at this ⊢
        omega
      · have := ih _ _ _ _ _ _ h
        simp only [List.countP_cons, convergedB]
        simp [h3] at this ⊢
        omega

lemma classifyRound_errs (es : String) (t : Bool) :
    ∀ (items : List TraceItem) (errs warns : List (String × String)) (succ : Nat)
      (e w : List (String × String)) (s : Nat),
      classifyRound es t items errs warns succ = some (e, w, s) →
      (∀ x ∈ errs, x ∈ e) ∧
      (t = true → ∀ i ∈ items, pendingB es i = true → (i.node, timeoutMsg) ∈ e) := by
  intro items
  induction items with
  | nil =>
      intro errs warns succ e w s h
      simp only [classifyRound, Option.some.injEq, Prod.mk.injEq] at h
      refine ⟨fun x hx => ?_, by simp⟩
      rw [← h.1]; exact hx
  | cons i rest ih =>
      intro errs warns succ e w s h
      simp only [classifyRound] at h
      split_ifs at h with h1 h2 h3 h4
      · obtain ⟨hmem, hpend⟩ := ih _ _ _ _ _ _ h
        refine ⟨fun x hx => hmem x (by simp [hx]), fun ht j hj hpj => ?_⟩
        rcases List.mem_cons.mp hj with hj | hj
        · subst hj
          simp [pendingB, h1] at hpj
        · exact hpend ht j hj hpj
      · obtain ⟨hmem, hpend⟩ := ih _ _ _ _ _ _ h
        refine ⟨hmem, fun ht j hj hpj => ?_⟩
        rcases List.mem_cons.mp hj with hj | hj
        · subst hj
          simp [pendingB, h2] at hpj
        · exact hpend ht j hj hpj
      · obtain ⟨hmem, hpend⟩ := ih _ _ _ _ _ _ h
        refine ⟨hmem, fun ht j hj hpj => ?_⟩
        rcases List.mem_cons.mp hj with hj | hj
        · subst hj
          simp [pendingB, h1, h2, h3] at hpj
        · exact hpend ht j hj hpj
      · obtain ⟨hmem, hpend⟩ := ih _ _ _ _ _ _ h
        refine ⟨fun x hx => hmem x (by simp [hx]), fun ht j hj hpj => ?_⟩
        rcases List.mem_cons.mp hj with hj | hj
        · subst hj
          exact hmem (j.node, timeoutMsg) (by simp)
        · exact hpend ht j hj hpj

lemma waitForTraceStateRound_none (items : List TraceItem) (es : String)
    (t : Bool) (hne : items ≠ [])
    (hc : classifyRound es t items [] [] 0 = none) :
    waitForTraceStateRound items es t = .retry := by
  unfold waitForTraceStateRound
  simp [hne, hc]

lemma waitForTraceStateRound_some (items : List TraceItem) (es : String)
    (t : Bool) (errs warns : List (String × String)) (succ : Nat)
    (hne : items ≠ [])
    (hc : classifyRound es t items [] [] 0 = some (errs, warns, succ)) :
    waitForTraceStateRound items es t =
      if succ = 0 then
        .failed noneSucceededMsg
          (printTraceFeedback warns items.length ++
            printTraceFeedback errs items.length)
      else
        .success items (printTraceFeedback errs items.length) := by
  unfold waitForTraceStateRound
  simp [hne, hc]

lemma countP_pos_iff {α : Type} (p : α → Bool) (l : List α) :
    0 < l.countP p ↔ ∃ a ∈ l, p a = true := by
  induction l with
  | nil => simp
  | cons a l ih =>
      by_cases hpa : p a = true
      · simp [List.countP_cons, hpa]
      · simp [List.countP_cons, hpa, ih]

/-- C1: in any round of `waitForTraceState` over a non-empty fetched copy
list, the round returns the trace list (success) if and only if it did not
retry and at least one copy has empty error and warning fields and the
expected state; when additionally no copy converged, it returns the failure
`"Failed to run the gadget on all nodes: None of them succeeded"`; and once
the timeout has elapsed the round never retries — each copy that neither
converged nor reported an error or warning is recorded as the per-node error
`"No results received from trace within 2s"`. -/
theorem waitForTraceState_success_iff_convergence
    (items : List TraceItem) (es : String) (t : Bool) (hne : items ≠ []) :
    ((∃ pr, waitForTraceStateRound items es t = .success items pr) ↔
      (waitForTraceStateRound items es t ≠ .retry ∧
        ∃ i ∈ items, convergedB es i = true)) ∧
    (waitForTraceStateRound items es t ≠ .retry →
      (¬ ∃ i ∈ items, convergedB es i = true) →
      ∃ pr, waitForTraceStateRound items es t = .failed noneSucceededMsg pr) ∧
    (t = true →
      waitForTraceStateRound items es t ≠ .retry ∧
      ∀ e w s, classifyRound es true items [] [] 0 = some (e, w, s) →
        ∀ i ∈ items, pendingB es i = true → (i.node, timeoutMsg) ∈ e) := by
  rcases hcr : classifyRound es t items [] [] 0 with _ | ⟨e0, w0, s0⟩
  · have heq := waitForTraceStateRound_none items es t hne hcr
    refine ⟨?_, ?_, ?_⟩
    · rw [heq]; simp
    · rw [heq]; simp
    · intro ht
      subst ht
      have := classifyRound_timeout_isSome es items [] [] 0
      rw [hcr] at this
      simp at this
  · have heq := waitForTraceStateRound_some items es t e0 w0 s0 hne hcr
    have hsucc := classifyRound_succ_eq es t items [] [] 0 e0 w0 s0 hcr
    simp only [Nat.zero_add] at hsucc
    by_cases hz : s0 = 0
    · rw [if_pos hz] at heq
      refine ⟨?_, ?_, ?_⟩
      · rw [heq]
        constructor
        · rintro ⟨pr, hpr⟩; exact absurd hpr (by simp)
        · rintro ⟨-, i, hi, hconv⟩
          have : 0 < items.countP (convergedB es) :=
            (countP_pos_iff (convergedB es) items).mpr ⟨i, hi, hconv⟩
          omega
      · intro _ _
        exact ⟨_, heq⟩
      · intro ht
        subst ht
        refine ⟨by rw [heq]; simp, fun e w s hc => ?_⟩
        exact (classifyRound_errs es true items [] [] 0 e w s hc).2 rfl
    · rw [if_neg hz] at heq
      refine ⟨?_, ?_, ?_⟩
      · rw [heq]
        constructor
        · intro _
          refine ⟨by simp, ?_⟩
          have : 0 < items.countP (convergedB es) := by omega
          exact (countP_pos_iff (convergedB es) items).mp this
        · intro _
          exact ⟨_, rfl⟩
      · intro _ hnc
        exfalso
        have : 0 < items.countP (convergedB es) := by omega
        exact hnc ((countP_pos_iff (convergedB es) items).mp this)
      · intro ht
        subst ht
        refine ⟨by rw [heq]; simp, fun e w s hc => ?_⟩
        exact (classifyRound_errs es true items [] [] 0 e w s hc).2 rfl

/-- Witness for C1: a two-copy snapshot where node n1 converged and node n2
reported an error; the round succeeds. -/
theorem waitForTraceState_success_iff_convergence_witness :
    ([(⟨"n1", ⟨"", "", "Started"⟩⟩ : TraceItem), ⟨"n2", ⟨"boom", "", ""⟩⟩] ≠
        ([] : List TraceItem)) ∧
    (∃ pr, waitForTraceStateRound
        [⟨"n1", ⟨"", "", "Started"⟩⟩, ⟨"n2", ⟨"boom", "", ""⟩⟩] "Started" false =
      .success [⟨"n1", ⟨"", "", "Started"⟩⟩, ⟨"n2", ⟨"boom", "", ""⟩⟩] pr) :=
  ⟨by decide,
    (waitForTraceState_success_iff_convergence
        [⟨"n1", ⟨"", "", "Started"⟩⟩, ⟨"n2", ⟨"boom", "", ""⟩⟩] "Started" false
        (by decide)).1.mpr
      ⟨by decide, ⟨"n1", ⟨"", "", "Started"⟩⟩, by decide, by decide⟩⟩

/-- C3: in a terminating round, warnings are printed exactly when zero
copies converged — the failure case prints the warning feedback followed by
the deferred error feedback, while the success case prints only the error
feedback — so per-node errors are printed regardless of how many copies
succeeded and no warning is emitted when at least one copy converged. -/
theorem waitForTraceState_warning_suppression
    (items : List TraceItem) (es : String) (t : Bool)
    (e w : List (String × String)) (s : Nat) (hne : items ≠ [])
    (hc : classifyRound es t items [] [] 0 = some (e, w, s)) :
    (0 < s → waitForTraceStateRound items es t =
        .success items (printTraceFeedback e items.length)) ∧
    (s = 0 → waitForTraceStateRound items es t =
        .failed noneSucceededMsg
          (printTraceFeedback w items.length ++
            printTraceFeedback e items.length)) := by
  have heq := waitForTraceStateRound_some items es t e w s hne hc
  constructor
  · intro hs
    rw [heq, if_neg (by omega)]
  · intro hs
    rw [heq, if_pos hs]

/-- Witness for C3: one copy converged, one warned; the warning is not
printed in the success output. -/
theorem waitForTraceState_warning_suppression_witness :
    classifyRound "Started" false
        [⟨"n1", ⟨"", "", "Started"⟩⟩, ⟨"n2", ⟨"", "careful", ""⟩⟩] [] [] 0 =
      some ([], [("n2", "careful")], 1) ∧
    waitForTraceStateRound
        [⟨"n1", ⟨"", "", "Started"⟩⟩, ⟨"n2", ⟨"", "careful", ""⟩⟩] "Started" false =
      .success [⟨"n1", ⟨"", "", "Started"⟩⟩, ⟨"n2", ⟨"", "careful", ""⟩⟩]
        (printTraceFeedback [] 2) :=
  ⟨by decide,
    (waitForTraceState_warning_suppression
        [⟨"n1", ⟨"", "", "Started"⟩⟩, ⟨"n2", ⟨"", "careful", ""⟩⟩] "Started" false
        [] [("n2", "careful")] 1 (by decide) (by decide)).1 (by decide)⟩

lemma getIdenticalValueAux_const (v : String) (hv : v ≠ "") :
    ∀ m : List (String × String), (∀ p ∈ m, p.2 = v) →
      getIdenticalValueAux v m = v := by
  intro m
  induction m with
  | nil => intro _; rfl
  | cons p rest ih =>
      intro hall
      obtain ⟨pa, pb⟩ := p
      have hp : pb = v := hall (pa, pb) (by simp)
      simp only [getIdenticalValueAux]
      rw [if_neg hv, hp, if_neg (by simp)]
      exact ih (fun q hq => hall q (by simp [hq]))

lemma getIdenticalValue_const (v : String) (hv : v ≠ "")
    (m : List (String × String)) (hne : m ≠ [])
    (hall : ∀ p ∈ m, p.2 = v) : getIdenticalValue m = v := by
  obtain ⟨p, rest, rfl⟩ := List.exists_cons_of_ne_nil hne
  obtain ⟨pa, pb⟩ := p
  have hp : pb = v := hall (pa, pb) (by simp)
  simp only [getIdenticalValue, getIdenticalValueAux, if_pos rfl]
  rw [hp]
  exact getIdenticalValueAux_const v hv rest (fun q hq => hall q (by simp [hq]))

lemma getIdenticalValueAux_ne (v : String) (hv : v ≠ "") :
    ∀ m : List (String × String), (∃ p ∈ m, p.2 ≠ v) →
      getIdenticalValueAux v m = "" := by
  intro m
  induction m with
  | nil => rintro ⟨p, hp, -⟩; simp at hp
  | cons p rest ih =>
      rintro ⟨q, hq, hqv⟩
      obtain ⟨pa, pb⟩ := p
      simp only [getIdenticalValueAux]
      rw [if_neg hv]
      by_cases hpb : pb = v
      · rw [if_neg (by simp [hpb])]
        rcases List.mem_cons.mp hq with h | h
        · subst h; simp [hpb] at hqv
        · exact ih ⟨q, h, hqv⟩
      · rw [if_pos (by simp; exact fun hc => hpb hc.symm)]

lemma getIdenticalValue_not_const (m : List (String × String))
    (hmsg : ∀ p ∈ m, p.2 ≠ "")
    (hnc : ¬ ∃ v, ∀ p ∈ m, p.2 = v) : getIdenticalValue m = "" := by
  match m with
  | [] => exact absurd ⟨"", by simp⟩ hnc
  | (pa, pb) :: rest =>
    have hpb : pb ≠ "" := hmsg (pa, pb) (by simp)
    simp only [getIdenticalValue, getIdenticalValueAux, if_pos rfl]
    apply getIdenticalValueAux_ne pb hpb
    by_contra hno
    push_neg at hno
    refine hnc ⟨pb, fun q hq => ?_⟩
    rcases List.mem_cons.mp hq with h | h
    · rw [h]
    · exact hno q h

/-- Counterexample for C4: a two-entry map covering both nodes whose
messages are the empty string and "x" — not all entries carry one identical
non-empty message, so the claim predicts one per-node line per entry, yet
`getIdenticalValue` skips the empty message and `printTraceFeedback` prints
the single aggregate line instead. -/
theorem printTraceFeedback_empty_message_cex :
    ((("a", ""), ("b", "x")) : (String × String) × (String × String)).1.2 ≠
      ((("a", ""), ("b", "x")) : (String × String) × (String × String)).2.2 ∧
    printTraceFeedback [("a", ""), ("b", "x")] 2 = [allNodesLine "x"] ∧
    printTraceFeedback [("a", ""), ("b", "x")] 2 ≠
      List.map perNodeLine [("a", ""), ("b", "x")] := by
  refine ⟨by decide, by decide, by decide⟩

/-- C4 (amended): for a non-empty feedback map all of whose messages are
non-empty — which holds for the maps `waitForTraceState` builds, since a
node is only recorded with a non-empty error or warning — `printTraceFeedback`
prints the single aggregate line containing the common message exactly when
the map has more than one entry, covers every node, and all messages are
identical; in every other such case it prints one per-node line per entry.
(Unrestricted, the claim fails: see the counterexample with an empty
message.) -/
theorem printTraceFeedback_dedup (m : List (String × String)) (totalNodes : Nat)
    (hne : m ≠ []) (hmsg : ∀ p ∈ m, p.2 ≠ "") :
    ((m.length > 1 ∧ m.length = totalNodes ∧ ∃ v, ∀ p ∈ m, p.2 = v) →
      ∃ v, v ≠ "" ∧ (∀ p ∈ m, p.2 = v) ∧
        printTraceFeedback m totalNodes = [allNodesLine v]) ∧
    (¬(m.length > 1 ∧ m.length = totalNodes ∧ ∃ v, ∀ p ∈ m, p.2 = v) →
      printTraceFeedback m totalNodes = m.map perNodeLine) := by
  constructor
  · rintro ⟨hlen, htot, v, hall⟩
    have hv : v ≠ "" := by
      obtain ⟨p, rest, rfl⟩ := List.exists_cons_of_ne_nil hne
      have hmem : p ∈ p :: rest := by simp
      have := hmsg p hmem
      rw [hall p hmem] at this
      exact this
    have hid : getIdenticalValue m = v := getIdenticalValue_const v hv m hne hall
    refine ⟨v, hv, hall, ?_⟩
    unfold printTraceFeedback
    rw [if_pos ⟨hlen, htot, by rw [hid]; exact hv⟩, hid]
  · intro hnA
    have hcond :
        ¬(m.length > 1 ∧ m.length = totalNodes ∧ getIdenticalValue m ≠ "") := by
      rintro ⟨hlen, htot, hid⟩
      refine hnA ⟨hlen, htot, ?_⟩
      by_contra hnc
      exact hid (getIdenticalValue_not_const m hmsg hnc)
    unfold printTraceFeedback
    rw [if_neg hcond]

/-- Witness for C4 (amended): two nodes reporting the identical non-empty
message yield the single aggregate line. -/
theorem printTraceFeedback_dedup_witness :
    ([("a", "m"), ("b", "m")] ≠ ([] : List (String × String))) ∧
    printTraceFeedback [("a", "m"), ("b", "m")] 2 = [allNodesLine "m"] := by
  refine ⟨by decide, ?_⟩
  obtain ⟨v, hv, hall, hout⟩ :=
    (printTraceFeedback_dedup [("a", "m"), ("b", "m")] 2 (by decide)
        (by decide)).1 ⟨by decide, by decide, "m", by decide⟩
  have hvm : "m" = v := hall ("a", "m") (by decide)
  rw [← hvm] at hout
  exact hout

lemma createTracesLoop_rollback (env : CreateEnv) (trace : TraceObj)
    (t : String) (hdel : env.deleteErr = none)
    (htid : trace.labelsTid = some t) :
    ∀ (nodes : List String) (st st' : List TraceCopy) (e : String),
      createTracesLoop env trace nodes st = (st', some e) →
      ∀ c ∈ st', c.tid ≠ some t := by
  intro nodes
  induction nodes with
  | nil => intro st st' e h; simp [createTracesLoop] at h
  | cons n rest ih =>
      intro st st' e h
      simp only [createTracesLoop] at h
      split_ifs at h with h1 h2
      · exact ih st st' e h
      · rw [htid] at h
        simp only [deleteTraces, hdel, Prod.mk.injEq] at h
        obtain ⟨h3, -⟩ := h
        subst h3
        intro c hc
        have := List.of_mem_filter hc
        simpa using this
      all_goals exact ih _ st' e h

lemma createTraces_rollback (env : CreateEnv) (trace : TraceObj) (t : String)
    (hdel : env.deleteErr = none) (htid : trace.labelsTid = some t)
    (nodes : List String) (st st' : List TraceCopy) (e : String)
    (hpure : ∀ c ∈ st, c.tid ≠ some t)
    (h : createTraces env trace nodes st = (st', some e)) :
    ∀ c ∈ st', c.tid ≠ some t := by
  unfold createTraces at h
  split at h
  · simp only [Prod.mk.injEq] at h
    obtain ⟨h1, -⟩ := h
    subst h1
    exact hpure
  · split at h
    · simp only [Prod.mk.injEq] at h
      obtain ⟨h1, -⟩ := h
      subst h1
      exact hpure
    · split at h
      · simp only [Prod.mk.injEq] at h
        obtain ⟨h1, -⟩ := h
        subst h1
        exact hpure
      · exact createTracesLoop_rollback env trace t hdel htid nodes st st' e h

/-- C2: rollback on partial creation failure. If the posted trace carries a
`GLOBAL_TRACE_ID` label and the per-node create call fails on some node,
`createTraces` deletes every copy under that identifier (via the
label-selector delete) before returning the error, so — assuming the rollback
delete call itself succeeds — no copy with that identifier remains; and
`CreateTrace` returns every error together with an empty traceID and a state
holding no copy under the generated identifier, also when a non-empty
`TraceInitialState` was requested and convergence failed. -/
theorem createTraces_rollback_on_failure (env : CreateEnv)
    (hdel : env.deleteErr = none) :
    (∀ (trace : TraceObj) (t : String) (nodes : List String)
        (st st' : List TraceCopy) (e : String),
      trace.labelsTid = some t →
      (∀ c ∈ st, c.tid ≠ some t) →
      createTraces env trace nodes st = (st', some e) →
      ∀ c ∈ st', c.tid ≠ some t) ∧
    (∀ (rnd : Nat → Nat) (waitErr : Option String) (config : TraceConfig)
        (nodes : List String) (st st' : List TraceCopy) (tid : String)
        (e : String),
      (∀ c ∈ st, c.tid ≠ some (randomTraceID rnd)) →
      CreateTrace env rnd waitErr none config nodes st = (st', tid, some e) →
      tid = "" ∧ ∀ c ∈ st', c.tid ≠ some (randomTraceID rnd)) := by
  refine ⟨fun trace t nodes st st' e htid hpure h =>
      createTraces_rollback env trace t hdel htid nodes st st' e hpure h,
    fun rnd waitErr config nodes st st' tid e hpure h => ?_⟩
  unfold CreateTrace at h
  rcases hct : createTraces env (builtTrace rnd config) nodes st with ⟨st1, err⟩
  rw [hct] at h
  rcases err with _ | e1
  · dsimp only at h
    split_ifs at h with hst
    · rcases waitErr with _ | ew
      · simp at h
      · simp only [DeleteTrace, hdel, deleteTraces, Prod.mk.injEq] at h
        obtain ⟨h1, h2, -⟩ := h
        subst h1
        refine ⟨h2.symm, fun c hc => ?_⟩
        have := List.of_mem_filter hc
        simpa using this
    · simp at h
  · dsimp only at h
    simp only [Prod.mk.injEq] at h
    obtain ⟨h1, h2, h3⟩ := h
    subst h1
    refine ⟨h2.symm, ?_⟩
    exact createTraces_rollback env (builtTrace rnd config) (randomTraceID rnd)
      hdel rfl nodes st st1 e1 hpure hct

/-- Witness for C2: two nodes where creation fails on the second; the copy
already created on the first node is rolled back, leaving no copy under the
identifier. -/
theorem createTraces_rollback_on_failure_witness :
    (createTraces ⟨none, none, none, fun n => n == "n2", none⟩
        ⟨some "t0", "", "g", none⟩ ["n1", "n2"] []).2.isSome ∧
    ∀ c ∈ (createTraces ⟨none, none, none, fun n => n == "n2", none⟩
        ⟨some "t0", "", "g", none⟩ ["n1", "n2"] []).1, c.tid ≠ some "t0" := by
  have hrun : createTraces ⟨none, none, none, fun n => n == "n2", none⟩
      ⟨some "t0", "", "g", none⟩ ["n1", "n2"] [] =
      ([], some "Error creating trace on node \"n2\"") := by decide
  refine ⟨by rw [hrun]; decide, ?_⟩
  intro c hc
  exact (createTraces_rollback_on_failure
      ⟨none, none, none, fun n => n == "n2", none⟩ rfl).1
    ⟨some "t0", "", "g", none⟩ "t0" ["n1", "n2"] []
    (createTraces ⟨none, none, none, fun n => n == "n2", none⟩
        ⟨some "t0", "", "g", none⟩ ["n1", "n2"] []).1
    "Error creating trace on node \"n2\"" rfl (by simp)
    (by rw [hrun]) c hc

/-- C9: `DeleteTrace` returns nil whenever the REST client could be built,
whatever the outcome of the delete call — a delete failure is only written
to stderr and leaves the caller unaffected; the only error `DeleteTrace`
can return is the REST-client construction failure, in which case the state
is untouched and no delete was attempted; on a successful delete every copy
sharing the identifier is removed. -/
theorem DeleteTrace_best_effort (deleteErr : Option String) (traceID : String)
    (st : List TraceCopy) :
    ((DeleteTrace none deleteErr traceID st).2.2 = none) ∧
    (∀ e, DeleteTrace (some e) deleteErr traceID st = (st, [], some e)) ∧
    (∀ e, deleteErr = some e →
      DeleteTrace none deleteErr traceID st =
        (st, ["Error deleting traces: \"" ++ e ++ "\""], none)) ∧
    (deleteErr = none →
      DeleteTrace none deleteErr traceID st =
        (st.filter (fun c => decide (c.tid ≠ some traceID)), [], none)) := by
  refine ⟨?_, fun e => rfl, fun e he => ?_, fun hd => ?_⟩
  · cases deleteErr <;> rfl
  · subst he; rfl
  · subst hd; rfl

/-- Witness for C9: a failing delete call is only logged and the caller
still gets nil. -/
theorem DeleteTrace_best_effort_witness :
    DeleteTrace none (some "boom") "t0" [⟨some "t0", "n1", "g"⟩] =
      ([⟨some "t0", "n1", "g"⟩], ["Error deleting traces: \"boom\""], none) :=
  (DeleteTrace_best_effort (some "boom") "t0" [⟨some "t0", "n1", "g"⟩]).2.2.1
    "boom" rfl

lemma createTracesLoop_skip_all (env : CreateEnv) (trace : TraceObj)
    (hnode : trace.specNode ≠ "") :
    ∀ (nodes : List String) (st : List TraceCopy),
      (∀ n ∈ nodes, n ≠ trace.specNode) →
      createTracesLoop env trace nodes st = (st, none) := by
  intro nodes
  induction nodes with
  | nil => intro st _; rfl
  | cons n rest ih =>
      intro st hmiss
      simp only [createTracesLoop]
      rw [if_pos ⟨hnode, hmiss n (by simp)⟩]
      exact ih st (fun q hq => hmiss q (by simp [hq]))

/-- C10: when an explicit target node is named but matches no listed node,
the creation loop never posts a copy, yet `CreateTrace` with an empty
`TraceInitialState` still returns the freshly generated identifier (a
16-character string) and a nil error, leaving the control plane unchanged. -/
theorem CreateTrace_nonexistent_node (env : CreateEnv) (rnd : Nat → Nat)
    (waitErr waitRestErr : Option String) (config : TraceConfig)
    (nodes : List String) (st : List TraceCopy)
    (hclient : env.clientErr = none) (hnodes : env.nodesErr = none)
    (hrest : env.restErr = none)
    (hnode : config.commonFlags.node ≠ "")
    (hmiss : ∀ n ∈ nodes, n ≠ config.commonFlags.node)
    (hstate : config.traceInitialState = "") :
    CreateTrace env rnd waitErr waitRestErr config nodes st =
      (st, randomTraceID rnd, none) ∧
    (randomTraceID rnd).length = 16 := by
  have hloop : createTracesLoop env (builtTrace rnd config) nodes st =
      (st, none) :=
    createTracesLoop_skip_all env (builtTrace rnd config) hnode nodes st hmiss
  have hct : createTraces env (builtTrace rnd config) nodes st = (st, none) := by
    unfold createTraces
    rw [hclient, hnodes, hrest]
    exact hloop
  constructor
  · unfold CreateTrace
    rw [hct]
    dsimp only
    rw [if_neg (by simp [hstate])]
  · simp [randomTraceID, String.length]

/-- Witness for C10: the explicit node "nx" matches neither listed node;
creation posts nothing and still returns the generated identifier. -/
theorem CreateTrace_nonexistent_node_witness :
    CreateTrace ⟨none, none, none, fun _ => false, none⟩ (fun _ => 0)
        none none
        ⟨"g", "start", "Status", "", "", ⟨"nx", "", "", "", []⟩⟩
        ["n1", "n2"] [] =
      ([], randomTraceID (fun _ => 0), none) ∧
    (randomTraceID (fun _ => 0)).length = 16 :=
  CreateTrace_nonexistent_node ⟨none, none, none, fun _ => false, none⟩
    (fun _ => 0) none none
    ⟨"g", "start", "Status", "", "", ⟨"nx", "", "", "", []⟩⟩
    ["n1", "n2"] [] rfl rfl rfl (by decide) (by decide) rfl

/-- C8: the trace resource built by `CreateTrace` has a nil (omitted)
container filter if and only if namespace, pod name and container name are
all empty and the label list is empty; whenever one of them is set, the
filter is present and carries exactly those four values. -/
theorem buildContainerFilter_omitted_iff (rnd : Nat → Nat)
    (config : TraceConfig) :
    ((builtTrace rnd config).filter = none ↔
      config.commonFlags.namespaceName = "" ∧
        config.commonFlags.podname = "" ∧
        config.commonFlags.containername = "" ∧
        config.commonFlags.labels = []) ∧
    (∀ f, (builtTrace rnd config).filter = some f →
      f.namespaceName = config.commonFlags.namespaceName ∧
        f.podname = config.commonFlags.podname ∧
        f.containerName = config.commonFlags.containername ∧
        f.labels = config.commonFlags.labels) := by
  show (buildContainerFilter config.commonFlags = none ↔ _) ∧
    (∀ f, buildContainerFilter config.commonFlags = some f → _)
  unfold buildContainerFilter
  split_ifs with h
  · constructor
    · constructor
      · intro hx; exact absurd hx (by simp)
      · rintro ⟨h1, h2, h3, h4⟩
        rcases h with h | h | h | h
        · exact absurd h1 h
        · exact absurd h2 h
        · exact absurd h3 h
        · rw [h4] at h; simp at h
    · intro f hf
      simp only [Option.some.injEq] at hf
      rw [← hf]
      exact ⟨rfl, rfl, rfl, rfl⟩
  · push_neg at h
    obtain ⟨h1, h2, h3, h4⟩ := h
    have h4' : config.commonFlags.labels = [] := by
      have : config.commonFlags.labels.length = 0 := by omega
      exact List.length_eq_zero.mp this
    exact ⟨by simp [h1, h2, h3, h4'], fun f hf => by simp at hf⟩

/-- Witness for C8: with all filter inputs empty the built trace omits the
filter entirely. -/
theorem buildContainerFilter_omitted_iff_witness :
    (builtTrace (fun _ => 0)
        ⟨"g", "start", "Status", "", "", ⟨"n1", "", "", "", []⟩⟩).filter =
      none :=
  (buildContainerFilter_omitted_iff (fun _ => 0)
      ⟨"g", "start", "Status", "", "", ⟨"n1", "", "", "", []⟩⟩).1.mpr
    ⟨rfl, rfl, rfl, rfl⟩

end TraceOrchestrator

namespace TcpconnectTracer

set_option maxHeartbeats 1000000 in
lemma install_err_no_reader (cl : Bool) (f : InstallFaults) :
    ((install cl f).2).isSome → Res.reader ∉ (install cl f).1 := by
  unfold install
  cases cl <;> split_ifs <;> simp

/-- C5: the install step is all-or-nothing as seen by the caller of
`NewTracer`: whenever any program load or hook attachment inside `install`
fails, `NewTracer` runs `close` before the error reaches its caller, so
every resource acquired earlier in that call is released (the perf reader,
which `close` does not touch, is acquired last and is never held on an error
path), and `NewTracer` returns no tracer together with the error. -/
theorem NewTracer_all_or_nothing (cl : Bool) (f : InstallFaults)
    (h : ((install cl f).2).isSome) :
    (NewTracer cl f).1 = false ∧ ((NewTracer cl f).2.1).isSome ∧
      (NewTracer cl f).2.2 = [] := by
  rcases hi : install cl f with ⟨held, err⟩
  rcases err with _ | e
  · rw [hi] at h; simp at h
  · have hrd : Res.reader ∉ held := by
      have := install_err_no_reader cl f (by rw [hi]; rfl)
      rw [hi] at this
      exact this
    unfold NewTracer
    rw [hi]
    refine ⟨rfl, rfl, ?_⟩
    show closeTracer held = []
    unfold closeTracer
    rw [List.filter_eq_nil_iff]
    intro a ha
    simp only [decide_eq_true_eq]
    rintro rfl
    exact hrd ha

/-- Witness for C5: the second hook attachment fails; the collection and the
first hook were already acquired and nothing remains attached after
`NewTracer` returns the error. -/
theorem NewTracer_all_or_nothing_witness :
    ((install false
        ⟨false, false, false, false, true, false, false, false, false,
          false⟩).2).isSome ∧
    (NewTracer false
        ⟨false, false, false, false, true, false, false, false, false,
          false⟩).2.2 = [] :=
  ⟨by decide,
    (NewTracer_all_or_nothing false
        ⟨false, false, false, false, true, false, false, false, false, false⟩
        (by decide)).2.2⟩

/-- C6: the run loop ends without invoking the callback exactly on the
reader-closed condition; any other read error makes it invoke the callback
exactly once with an error-kind event carrying the underlying cause and
then exit; and a read error of one of these two kinds is the only way the
loop ends — on an error-free read sequence it is still consuming. -/
theorem runLoop_termination (enr : Option (Nat → String)) :
    (∀ rest, runLoop enr (ReadResult.errClosed :: rest) =
      ([], LoopExit.closedExit)) ∧
    (∀ msg rest, runLoop enr (ReadResult.errOther msg :: rest) =
      ([errEvent msg],  LoopExit.erroredExit)) ∧
    (∀ msg, (errEvent msg).eventType = EventType.errType ∧
      (errEvent msg).message = "Error reading perf ring buffer: " ++ msg) ∧
    (∀ rs, (runLoop enr rs).2 ≠ LoopExit.running ↔
      ∃ r ∈ rs, r.isErr = true) ∧
    (∀ rs, (runLoop enr rs).1.countP
        (fun ev => decide (ev.eventType = EventType.errType)) =
      if (runLoop enr rs).2 = LoopExit.erroredExit then 1 else 0) := by
  refine ⟨fun rest => rfl, fun msg rest => rfl, fun msg => ⟨rfl, rfl⟩,
    fun rs => ?_, fun rs => ?_⟩
  · induction rs with
    | nil => simp [runLoop]
    | cons r rest ih =>
        cases r with
        | errClosed => simp [runLoop, ReadResult.isErr]
        | errOther msg => simp [runLoop, ReadResult.isErr]
        | ok rec =>
            by_cases hl : rec.lostSamples > 0
            · simp [runLoop, hl, ReadResult.isErr, ih]
            · simp [runLoop, hl, ReadResult.isErr, ih]
  · induction rs with
    | nil => simp [runLoop]
    | cons r rest ih =>
        cases r with
        | errClosed => simp [runLoop]
        | errOther msg => simp [runLoop, errEvent]
        | ok rec =>
            by_cases hl : rec.lostSamples > 0
            · simp [runLoop, hl, List.countP_cons, warnEvent, ih]
            · simp [runLoop, hl, List.countP_cons, decodeEvent, ih]

/-- Witness for C6: closing the reader ends the loop with no event. -/
theorem runLoop_termination_witness :
    runLoop none [ReadResult.errClosed] = ([], LoopExit.closedExit) :=
  (runLoop_termination none).1 []

/-- C7: a record with a positive lost-sample count makes the run loop invoke
the callback exactly once with a warning-kind event whose message states the
lost count; the record is not decoded as a normal event and the loop
continues with the remaining records exactly as it would have without the
lost-sample record. -/
theorem runLoop_lost_samples (enr : Option (Nat → String)) (rec : PerfRecord)
    (rest : List ReadResult) (h : 0 < rec.lostSamples) :
    runLoop enr (ReadResult.ok rec :: rest) =
      (warnEvent rec.lostSamples :: (runLoop enr rest).1,
        (runLoop enr rest).2) ∧
    (warnEvent rec.lostSamples).eventType = EventType.warnType ∧
    (warnEvent rec.lostSamples).message =
      "lost " ++ toString rec.lostSamples ++ " samples" ∧
    (warnEvent rec.lostSamples).eventType ≠
      (decodeEvent enr rec.rawSample).eventType := by
  refine ⟨?_, rfl, rfl, by simp [warnEvent, decodeEvent]⟩
  simp [runLoop, h]

/-- Witness for C7: three lost samples produce one warning event and the
loop (here at the end of the read sequence) is still running. -/
theorem runLoop_lost_samples_witness :
    0 < (⟨3, ⟨0, 0, 0, 0, 0, 0, 0, 0, ""⟩⟩ : PerfRecord).lostSamples ∧
    runLoop none [ReadResult.ok ⟨3, ⟨0, 0, 0, 0, 0, 0, 0, 0, ""⟩⟩] =
      ([warnEvent 3], LoopExit.running) := by
  refine ⟨by decide, ?_⟩
  exact (runLoop_lost_samples none ⟨3, ⟨0, 0, 0, 0, 0, 0, 0, 0, ""⟩⟩ []
      (by decide)).1

end TcpconnectTracer
